import Mathlib

/-!
Shallow embedding of `scripts/generate_reference.py`: a utility script that
renders twelve chart types to PNG files via matplotlib, from a synthetic
dataset drawn from numpy's globally seeded pseudo-random generator.

Modelling conventions.

numpy's global PRNG is a state `RngState`: the seed it was last seeded with
and the number of variates drawn since seeding.  `np.random.seed s` resets
the state to `⟨s, 0⟩`; drawing `k` variates advances the position by `k`.
The concrete values produced by the Mersenne Twister are abstracted as
families `randnV`, `uniformV`, `expV` indexed by seed and position: the real
generator is one fixed such family, and every structural property proved
below is quantified over all of them.

Transcendental library functions (`np.sin`, `np.exp` inside the contour
formula) are abstracted as function parameters `sinQ`, `expQ` over `ℚ`.

The observable world is: the PRNG state, the directories created, the files
written by `savefig` (in order), the console lines printed (in order) and
the data series handed to the plotting library's drawing calls (in order).
Pure styling calls (titles, axis labels, legends, grids, colorbars, text
annotations) configure the in-memory per-chart figure only, which is closed
right after the file write, so they leave no persistent effect and are not
recorded.  A renderer raising an exception (matplotlib failures) is modelled
by an oracle `String → Option String` giving, per chart name, the message of
the exception the renderer raises, if any.
-/

/-- Model of numpy's global generator state: the last seed and the number of
variates drawn since seeding. -/
structure RngState where
  seed : Nat
  pos : Nat
deriving DecidableEq

section Script

variable (randnV : Nat → Nat → ℚ)
variable (uniformV : ℚ → ℚ → Nat → Nat → ℚ)
variable (expV : ℚ → Nat → Nat → ℚ)
variable (sinQ : ℚ → ℚ)
variable (expQ : ℚ → ℚ)

/-- Model of `np.random.randn k` with the global generator at seed `s` and
position `pos`: the `k` consecutive variates at positions `pos`, `pos+1`, …
of the family `randnV`. -/
def randnSeq (s pos k : Nat) : List ℚ :=
  (List.range k).map (fun i => randnV s (pos + i))

/-- Model of `np.random.uniform lo hi k` at seed `s`, position `pos`. -/
def uniformSeq (lo hi : ℚ) (s pos k : Nat) : List ℚ :=
  (List.range k).map (fun i => uniformV lo hi s (pos + i))

/-- Model of `np.random.exponential scale k` at seed `s`, position `pos`. -/
def expSeq (scale : ℚ) (s pos k : Nat) : List ℚ :=
  (List.range k).map (fun i => expV scale s (pos + i))

/-- Model of `np.linspace a b k` (endpoint included, as numpy does). -/
def linspace (a b : ℚ) (k : Nat) : List ℚ :=
  if k = 0 then []
  else if k = 1 then [a]
  else (List.range k).map (fun i => a + (b - a) * (i : ℚ) / ((k : ℚ) - 1))

/-- The dictionary returned by `generate_test_data`: one entry per key
(`xy` is a pair of sequences, split here into `xyX`, `xyY`). -/
structure Dataset where
  normal : List ℚ
  bimodal : List ℚ
  uniform : List ℚ
  exponential : List ℚ
  xyX : List ℚ
  xyY : List ℚ
deriving DecidableEq

/-- `generate_test_data(n, seed)`: calls `np.random.seed(seed)` first and
then draws, in dictionary order, `normal` (`n` variates), the two `bimodal`
halves (`n/2` each, shifted by `-2` resp. `+2`), `uniform` (`n`),
`exponential` (`n`) and the noise added to `np.sin` for `xy` (`n`),
consuming `n + n/2 + n/2 + n + n + n` variates in total.  The positions
written below spell out that sequential consumption; the incoming global
state `_σ` is discarded by the reseed, which is why it is unused. -/
def generate_test_data (n s : Nat) (_σ : RngState) : Dataset × RngState :=
  ({ normal := randnSeq randnV s 0 n
   , bimodal :=
       (randnSeq randnV s n (n / 2)).map (fun x => x - 2)
         ++ (randnSeq randnV s (n + n / 2) (n / 2)).map (fun x => x + 2)
   , uniform := uniformSeq uniformV (-3) 3 s (n + n / 2 + n / 2) n
   , exponential := expSeq expV 1 s (n + n / 2 + n / 2 + n) n
   , xyX := linspace 0 10 n
   , xyY := List.zipWith (fun t v => sinQ t + v * (1 / 10))
       (linspace 0 10 n) (randnSeq randnV s (n + n / 2 + n / 2 + n + n) n) },
   ⟨s, n + n / 2 + n / 2 + n + n + n⟩)

/-- The observable state of a run: global PRNG state, directories created,
files written by `savefig` (in order), console lines printed (in order),
and the numeric series handed to drawing calls (in order). -/
structure World where
  rng : RngState
  dirs : List String
  files : List String
  logs : List String
  plots : List (String × List ℚ)
deriving DecidableEq

/-- `SEED = 42`. -/
def SEED : Nat := 42

/-- The fixed relative output directory. -/
def OUTPUT_DIR : String := "tests/visual/reference/matplotlib"

/-- The constant path `OUTPUT_DIR / '<name>.png'` each renderer saves to. -/
def pngPath (name : String) : String := OUTPUT_DIR ++ "/" ++ name ++ ".png"

/-- One `print` call. -/
def logLine (w : World) (s : String) : World := { w with logs := w.logs ++ [s] }

/-- `ensure_output_dir`: `OUTPUT_DIR.mkdir(parents=True, exist_ok=True)` —
creates the output directory when absent; writes no file. -/
def ensure_output_dir (w : World) : World :=
  { w with dirs := if OUTPUT_DIR ∈ w.dirs then w.dirs else w.dirs ++ [OUTPUT_DIR] }

/-- `generate_kde`: with seaborn, two `sns.kdeplot` calls; fallback, two
`ax.hist` calls; either way a single `savefig` to `kde.png` and one print. -/
def generate_kde (hasSns : Bool) (data : Dataset) (w : World) : World :=
  { w with
    plots := w.plots ++
      (if hasSns then
        [("sns.kdeplot", data.normal), ("sns.kdeplot", data.bimodal)]
      else
        [("ax.hist", data.normal), ("ax.hist", data.bimodal)]),
    files := w.files ++ [pngPath "kde"],
    logs := w.logs ++ ["Generated: " ++ pngPath "kde"] }

/-- The `y = np.arange(1, len+1) / len` vector of the manual ECDF path. -/
def ecdfY (l : List ℚ) : List ℚ :=
  (List.range l.length).map (fun i => ((i : ℚ) + 1) / (l.length : ℚ))

/-- Insertion into a sorted list (helper for modelling `np.sort`). -/
def insertSorted (a : ℚ) : List ℚ → List ℚ
  | [] => [a]
  | b :: t => if a ≤ b then a :: b :: t else b :: insertSorted a t

/-- Model of `np.sort`. -/
def sortQ (l : List ℚ) : List ℚ := l.foldr insertSorted []

/-- `generate_ecdf`: seaborn path or manual sorted-step fallback; one
`savefig` to `ecdf.png`, one print. -/
def generate_ecdf (hasSns : Bool) (data : Dataset) (w : World) : World :=
  { w with
    plots := w.plots ++
      (if hasSns then
        [("sns.ecdfplot", data.normal), ("sns.ecdfplot", data.bimodal)]
      else
        [("ax.step.ecdf.x", sortQ data.normal), ("ax.step.ecdf.y", ecdfY data.normal),
         ("ax.step.ecdf.x", sortQ data.bimodal), ("ax.step.ecdf.y", ecdfY data.bimodal)]),
    files := w.files ++ [pngPath "ecdf"],
    logs := w.logs ++ ["Generated: " ++ pngPath "ecdf"] }

/-- `generate_violin`: one `ax.violinplot` over three series; one `savefig`
to `violin.png`, one print. -/
def generate_violin (data : Dataset) (w : World) : World :=
  { w with
    plots := w.plots ++
      [("ax.violinplot", data.normal), ("ax.violinplot", data.bimodal),
       ("ax.violinplot", data.uniform)],
    files := w.files ++ [pngPath "violin"],
    logs := w.logs ++ ["Generated: " ++ pngPath "violin"] }

/-- `generate_step`: three `ax.step` calls (`where='pre'/'mid'/'post'`) over
the first 50 points of `xy`, the latter two with the series shifted by `0.5`
resp. `1.0`; a single `savefig` to `step.png` and one print. -/
def generate_step (data : Dataset) (w : World) : World :=
  { w with
    plots := w.plots ++
      [("ax.step.pre", data.xyY.take 50),
       ("ax.step.mid", (data.xyY.take 50).map (fun v => v + 1 / 2)),
       ("ax.step.post", (data.xyY.take 50).map (fun v => v + 1))],
    files := w.files ++ [pngPath "step"],
    logs := w.logs ++ ["Generated: " ++ pngPath "step"] }

/-- The contour grid `Z` over the 100 × 100 meshgrid of
`np.linspace (-3) 3 100` by `np.linspace (-3) 3 100`, flattened row-major
(row index `k / 100` along `y`, column index `k % 100` along `x`); each
mesh coordinate is `-3 + 6 * i / 99` as in `linspace`. -/
def contourZ : List ℚ :=
  (List.range 10000).map (fun k =>
    let xv : ℚ := -3 + 6 * ((k % 100 : Nat) : ℚ) / 99
    let yv : ℚ := -3 + 6 * ((k / 100 : Nat) : ℚ) / 99
    expQ (-(xv ^ 2 + yv ^ 2) / 2)
      + (1 / 2) * expQ (-((xv - 1) ^ 2 + (yv - 1) ^ 2) / (1 / 2)))

/-- `generate_contour`: `ax.contourf` and `ax.contour` over the same grid;
one `savefig` to `contour.png`, one print. -/
def generate_contour (_data : Dataset) (w : World) : World :=
  { w with
    plots := w.plots ++ [("ax.contourf", contourZ expQ), ("ax.contour", contourZ expQ)],
    files := w.files ++ [pngPath "contour"],
    logs := w.logs ++ ["Generated: " ++ pngPath "contour"] }

/-- `generate_hexbin`: reseeds the global generator with `SEED`, then draws
`x = np.random.randn(5000)` and `y = x + np.random.randn(5000) * 0.5`,
leaving the global state at `⟨SEED, 10000⟩`; one `savefig` to `hexbin.png`,
one print. -/
def generate_hexbin (_data : Dataset) (w : World) : World :=
  let x := randnSeq randnV SEED 0 5000
  let y := List.zipWith (fun a b => a + b * (1 / 2)) x (randnSeq randnV SEED 5000 5000)
  { w with
    rng := ⟨SEED, 10000⟩,
    plots := w.plots ++ [("ax.hexbin.x", x), ("ax.hexbin.y", y)],
    files := w.files ++ [pngPath "hexbin"],
    logs := w.logs ++ ["Generated: " ++ pngPath "hexbin"] }

/-- `generate_pie`: hard-coded values `[30, 25, 20, 15, 10]`; one `savefig`
to `pie.png`, one print. -/
def generate_pie (_data : Dataset) (w : World) : World :=
  { w with
    plots := w.plots ++ [("ax.pie", [30, 25, 20, 15, 10])],
    files := w.files ++ [pngPath "pie"],
    logs := w.logs ++ ["Generated: " ++ pngPath "pie"] }

/-- `generate_errorbar`: draws from the global generator *without*
reseeding: 10 normals for the noise on `y = np.sin(x) + randn*0.1` and 10
uniforms in `[0.1, 0.3)` for `y_err`, over `x = np.arange(1, 11)`; one
`savefig` to `errorbar.png`, one print. -/
def generate_errorbar (_data : Dataset) (w : World) : World :=
  let x : List ℚ := (List.range 10).map (fun i => (i : ℚ) + 1)
  let y := List.zipWith (fun xi ri => sinQ xi + ri * (1 / 10)) x
    (randnSeq randnV w.rng.seed w.rng.pos 10)
  let yerr := uniformSeq uniformV (1 / 10) (3 / 10) w.rng.seed (w.rng.pos + 10) 10
  { w with
    rng := ⟨w.rng.seed, w.rng.pos + 10 + 10⟩,
    plots := w.plots ++ [("ax.errorbar.y", y), ("ax.errorbar.yerr", yerr)],
    files := w.files ++ [pngPath "errorbar"],
    logs := w.logs ++ ["Generated: " ++ pngPath "errorbar"] }

/-- `generate_histogram`: two `ax.hist` calls; one `savefig` to
`histogram.png`, one print. -/
def generate_histogram (data : Dataset) (w : World) : World :=
  { w with
    plots := w.plots ++ [("ax.hist", data.normal), ("ax.hist", data.bimodal)],
    files := w.files ++ [pngPath "histogram"],
    logs := w.logs ++ ["Generated: " ++ pngPath "histogram"] }

/-- `generate_boxplot`: one `ax.boxplot` over four series; one `savefig` to
`boxplot.png`, one print. -/
def generate_boxplot (data : Dataset) (w : World) : World :=
  { w with
    plots := w.plots ++
      [("ax.boxplot", data.normal), ("ax.boxplot", data.bimodal),
       ("ax.boxplot", data.uniform), ("ax.boxplot", data.exponential)],
    files := w.files ++ [pngPath "boxplot"],
    logs := w.logs ++ ["Generated: " ++ pngPath "boxplot"] }

/-- The symmetrized `8 × 8` matrix `(m + m.T) / 2` of `generate_heatmap`,
flattened row-major, where `m` is `np.random.randn(8, 8)` drawn right after
`np.random.seed(SEED)`. -/
def heatmapMatrix : List ℚ :=
  let m := randnSeq randnV SEED 0 64
  (List.range 64).map (fun k => (m.getD k 0 + m.getD (8 * (k % 8) + k / 8) 0) / 2)

/-- `generate_heatmap`: reseeds with `SEED` and draws 64 normals, then
`sns.heatmap` or the `ax.imshow` fallback; one `savefig` to `heatmap.png`,
one print. -/
def generate_heatmap (hasSns : Bool) (_data : Dataset) (w : World) : World :=
  { w with
    rng := ⟨SEED, 64⟩,
    plots := w.plots ++
      (if hasSns then [("sns.heatmap", heatmapMatrix randnV)]
       else [("ax.imshow", heatmapMatrix randnV)]),
    files := w.files ++ [pngPath "heatmap"],
    logs := w.logs ++ ["Generated: " ++ pngPath "heatmap"] }

/-- `generate_radar`: two `ax.plot` and two `ax.fill` calls over the two
hard-coded six-value series, each closed by appending its first value; one
`savefig` to `radar.png`, one print. -/
def generate_radar (_data : Dataset) (w : World) : World :=
  let values1 : List ℚ := [8/10, 6/10, 7/10, 5/10, 9/10, 4/10]
  let values2 : List ℚ := [5/10, 9/10, 4/10, 8/10, 6/10, 7/10]
  { w with
    plots := w.plots ++
      [("ax.plot.radar", values1 ++ values1.take 1),
       ("ax.fill.radar", values1 ++ values1.take 1),
       ("ax.plot.radar", values2 ++ values2.take 1),
       ("ax.fill.radar", values2 ++ values2.take 1)],
    files := w.files ++ [pngPath "radar"],
    logs := w.logs ++ ["Generated: " ++ pngPath "radar"] }

/-- The twelve chart names, in the declaration order of the `generators`
list of `generate_all` (identical to the dictionary order in `main`). -/
def chartNames : List String :=
  ["kde", "ecdf", "violin", "step", "contour", "hexbin", "pie", "errorbar",
   "histogram", "boxplot", "heatmap", "radar"]

/-- The `generators` association list of `generate_all` / `main` (without
the extra `'all'` entry of `main`'s dictionary). -/
def generatorsList (hasSns : Bool) : List (String × (Dataset → World → World)) :=
  [("kde", generate_kde hasSns), ("ecdf", generate_ecdf hasSns),
   ("violin", generate_violin), ("step", generate_step),
   ("contour", generate_contour expQ), ("hexbin", generate_hexbin randnV),
   ("pie", generate_pie),
   ("errorbar", generate_errorbar randnV uniformV sinQ),
   ("histogram", generate_histogram), ("boxplot", generate_boxplot),
   ("heatmap", generate_heatmap randnV hasSns), ("radar", generate_radar)]

/-- The `for name, generator in generators: try generator(data) except e:
print(...)` loop of `generate_all`.  A raising renderer is modelled as
raising at entry (as reported by the oracle), in which case the `except`
arm prints the chart name and message and the loop continues. -/
def runGenerators (oracle : String → Option String) (data : Dataset) :
    List (String × (Dataset → World → World)) → World → World
  | [], w => w
  | (name, gen) :: rest, w =>
    match oracle name with
    | some e =>
      runGenerators oracle data rest
        (logLine w ("Error generating " ++ name ++ ": " ++ e))
    | none => runGenerators oracle data rest (gen data w)

/-- `generate_all()`: prints a header, ensures the output directory, draws
its own dataset (reseeding the global generator), runs every renderer under
the per-chart `try`/`except`, and prints a footer. -/
def generate_all (oracle : String → Option String) (hasSns : Bool) (w : World) : World :=
  let w1 := logLine w ("Generating reference images in: " ++ OUTPUT_DIR)
  let w2 := ensure_output_dir w1
  let p := generate_test_data randnV uniformV expV sinQ 1000 SEED w2.rng
  let w3 : World := { w2 with rng := p.2 }
  let w4 := runGenerators oracle p.1
    (generatorsList randnV uniformV sinQ expQ hasSns) w3
  logLine w4 "\nGenerated 12 reference images."

/-- The keys of `main`'s dispatch dictionary, in insertion order. -/
def dispatchKeys : List String := chartNames ++ ["all"]

/-- `main()`: takes the single positional argument `plotType` (default
`'all'` is applied by the caller), ensures the output directory, generates
the dataset, and dispatches.  `sys.exit(1)` on an unknown name is a normal
result with exit code 1; an exception escaping the single-chart path is the
`Except.error` case (the process terminates on the unhandled exception).
The final `Except.ok (w2, 0)` arm is unreachable: a known non-`all` name is
always found in the table. -/
def main' (oracle : String → Option String) (hasSns : Bool) (plotType : String)
    (w : World) : Except String (World × Nat) :=
  let w1 := ensure_output_dir w
  let p := generate_test_data randnV uniformV expV sinQ 1000 SEED w1.rng
  let w2 : World := { w1 with rng := p.2 }
  if plotType ∉ dispatchKeys then
    Except.ok
      (logLine (logLine w2 ("Unknown plot type: " ++ plotType))
        ("Available types: " ++ String.intercalate ", " dispatchKeys), 1)
  else if plotType = "all" then
    Except.ok (generate_all randnV uniformV expV sinQ expQ oracle hasSns w2, 0)
  else
    match oracle plotType with
    | some e => Except.error e
    | none =>
      match (generatorsList randnV uniformV sinQ expQ hasSns).find?
          (fun q => q.1 == plotType) with
      | some q => Except.ok (q.2 p.1 w2, 0)
      | none => Except.ok (w2, 0)

end Script

/-- The `y` series handed to `ax.errorbar`, when the run plotted one. -/
def errorbarSeries (w : World) : Option (List ℚ) :=
  (w.plots.find? (fun q => q.1 == "ax.errorbar.y")).map (fun q => q.2)

/-- `errorbarSeries` of the final world of a completed run. -/
def plottedOf : Except String (World × Nat) → Option (List ℚ)
  | Except.ok (w, _) => errorbarSeries w
  | Except.error _ => none

/-- Sample mean of a rational list (`0` for the empty list). -/
def meanQ (l : List ℚ) : ℚ := l.sum / (l.length : ℚ)

/-- A concrete variate family standing in for the Mersenne Twister: the
variate at position `p` is `p` itself. -/
def rv0 : Nat → Nat → ℚ := fun _ p => (p : ℚ)

/-- A concrete uniform family. -/
def uv0 : ℚ → ℚ → Nat → Nat → ℚ := fun lo _ _ p => lo + (p : ℚ)

/-- A concrete exponential family. -/
def ev0 : ℚ → Nat → Nat → ℚ := fun _ _ p => (p : ℚ)

/-- A concrete stand-in for `np.sin`. -/
def sq0 : ℚ → ℚ := fun _ => 0

/-- A concrete stand-in for `np.exp`. -/
def xq0 : ℚ → ℚ := fun _ => 0

/-- The all-zero variate family. -/
def rvZ : Nat → Nat → ℚ := fun _ _ => 0

/-- An empty initial world. -/
def w0 : World := ⟨⟨0, 0⟩, [], [], [], []⟩

/-- An empty dataset (for renderers that ignore their argument). -/
def dat0 : Dataset := ⟨[], [], [], [], [], []⟩

/-- The oracle under which no renderer raises. -/
def orcNone : String → Option String := fun _ => none

/-- An oracle under which exactly the violin renderer raises. -/
def orc1 : String → Option String :=
  fun n => if n == "violin" then some "boom" else none

/-- The `y` series `np.sin(x) + randn*0.1` that `generate_errorbar` hands to
`ax.errorbar` when the global generator is in state `σ`. -/
def ebY (rv : Nat → Nat → ℚ) (sq : ℚ → ℚ) (σ : RngState) : List ℚ :=
  List.zipWith (fun xi ri => sq xi + ri * (1 / 10))
    ((List.range 10).map (fun i => (i : ℚ) + 1)) (randnSeq rv σ.seed σ.pos 10)

/-- A renderer whose persistent effects are exactly one file write to
`pngPath name`, one console line, and no directory change. -/
def rendersOne (name : String) (gen : Dataset → World → World) : Prop :=
  ∀ data w, (gen data w).files = w.files ++ [pngPath name]
    ∧ (gen data w).logs = w.logs ++ ["Generated: " ++ pngPath name]
    ∧ (gen data w).dirs = w.dirs

/-! ### Helper lemmas -/

theorem sum_map_add_const (l : List ℚ) (c : ℚ) :
    (l.map (fun x => x + c)).sum = l.sum + l.length * c := by
  induction l with
  | nil => simp
  | cons a t ih =>
    simp only [List.map_cons, List.sum_cons, List.length_cons, ih]
    push_cast
    ring

theorem meanQ_map_add (l : List ℚ) (c : ℚ) (h : l ≠ []) :
    meanQ (l.map (fun x => x + c)) = meanQ l + c := by
  have hl : (l.length : ℚ) ≠ 0 := by
    exact_mod_cast Nat.pos_iff_ne_zero.mp (List.length_pos.mpr h)
  simp only [meanQ, sum_map_add_const, List.length_map]
  field_simp
  ring

theorem meanQ_map_sub (l : List ℚ) (c : ℚ) (h : l ≠ []) :
    meanQ (l.map (fun x => x - c)) = meanQ l - c := by
  have := meanQ_map_add l (-c) h
  simpa [sub_eq_add_neg] using this

theorem randnSeq_length (rv : Nat → Nat → ℚ) (s pos k : Nat) :
    (randnSeq rv s pos k).length = k := by
  simp [randnSeq]

theorem randnSeq_ne_nil (rv : Nat → Nat → ℚ) (s pos k : Nat) (hk : 0 < k) :
    randnSeq rv s pos k ≠ [] := by
  intro h
  have := randnSeq_length rv s pos k
  rw [h] at this
  simp at this
  omega

theorem generatorsList_rendersOne (rv : Nat → Nat → ℚ)
    (uv : ℚ → ℚ → Nat → Nat → ℚ) (sq xq : ℚ → ℚ) (hasSns : Bool) :
    ∀ q ∈ generatorsList rv uv sq xq hasSns, rendersOne q.1 q.2 := by
  intro q hq
  simp only [generatorsList, List.mem_cons, List.not_mem_nil, or_false] at hq
  rcases hq with h | h | h | h | h | h | h | h | h | h | h | h <;> subst h <;>
    exact fun data w => ⟨rfl, rfl, rfl⟩

theorem generatorsList_map_fst (rv : Nat → Nat → ℚ)
    (uv : ℚ → ℚ → Nat → Nat → ℚ) (sq xq : ℚ → ℚ) (hasSns : Bool) :
    (generatorsList rv uv sq xq hasSns).map Prod.fst = chartNames := rfl

/-- Characterization of the per-chart `try`/`except` loop: the files
written, lines printed and directories after the loop, for any oracle. -/
theorem runGenerators_spec (oracle : String → Option String) (data : Dataset) :
    ∀ (gens : List (String × (Dataset → World → World))) (w : World),
      (∀ q ∈ gens, rendersOne q.1 q.2) →
      (runGenerators oracle data gens w).files
          = w.files ++ gens.filterMap
              (fun q => if oracle q.1 = none then some (pngPath q.1) else none)
        ∧ (runGenerators oracle data gens w).logs
          = w.logs ++ gens.map (fun q =>
              match oracle q.1 with
              | some e => "Error generating " ++ q.1 ++ ": " ++ e
              | none => "Generated: " ++ pngPath q.1)
        ∧ (runGenerators oracle data gens w).dirs = w.dirs := by
  intro gens
  induction gens with
  | nil => intro w _; simp [runGenerators]
  | cons q rest ih =>
    intro w hspec
    obtain ⟨name, gen⟩ := q
    have hq := hspec _ (List.mem_cons_self _ _)
    have hrest := fun p hp => hspec p (List.mem_cons_of_mem _ hp)
    cases horc : oracle name with
    | some e =>
      obtain ⟨hf, hl, hd⟩ :=
        ih (logLine w ("Error generating " ++ name ++ ": " ++ e)) hrest
      have hstep : runGenerators oracle data ((name, gen) :: rest) w
          = runGenerators oracle data rest
              (logLine w ("Error generating " ++ name ++ ": " ++ e)) := by
        simp only [runGenerators, horc]
      refine ⟨?_, ?_, ?_⟩
      · rw [hstep, hf]; simp [logLine, horc, List.append_assoc]
      · rw [hstep, hl]; simp [logLine, horc, List.append_assoc]
      · rw [hstep, hd]; simp [logLine]
    | none =>
      obtain ⟨hf, hl, hd⟩ := ih (gen data w) hrest
      have hq' : rendersOne name gen := hq
      obtain ⟨hf0, hl0, hd0⟩ := hq' data w
      have hstep : runGenerators oracle data ((name, gen) :: rest) w
          = runGenerators oracle data rest (gen data w) := by
        simp only [runGenerators, horc]
      refine ⟨?_, ?_, ?_⟩
      · rw [hstep, hf, hf0]; simp [horc, List.append_assoc]
      · rw [hstep, hl, hl0]; simp [horc, List.append_assoc]
      · rw [hstep, hd, hd0]

/-- The lines printed by `generate_all`: a header, then one line per chart
(the success line or the caught-exception line), then a footer. -/
theorem generate_all_logs (rv : Nat → Nat → ℚ) (uv : ℚ → ℚ → Nat → Nat → ℚ)
    (ev : ℚ → Nat → Nat → ℚ) (sq xq : ℚ → ℚ)
    (oracle : String → Option String) (hasSns : Bool) (w : World) :
    (generate_all rv uv ev sq xq oracle hasSns w).logs
      = w.logs ++ ("Generating reference images in: " ++ OUTPUT_DIR)
          :: ((generatorsList rv uv sq xq hasSns).map (fun q =>
                match oracle q.1 with
                | some e => "Error generating " ++ q.1 ++ ": " ++ e
                | none => "Generated: " ++ pngPath q.1)
            ++ ["\nGenerated 12 reference images."]) := by
  obtain ⟨hf, hl, hd⟩ := runGenerators_spec oracle
    (generate_test_data rv uv ev sq 1000 SEED (ensure_output_dir
      (logLine w ("Generating reference images in: " ++ OUTPUT_DIR))).rng).1
    (generatorsList rv uv sq xq hasSns)
    ({ ensure_output_dir
        (logLine w ("Generating reference images in: " ++ OUTPUT_DIR)) with
      rng := (generate_test_data rv uv ev sq 1000 SEED (ensure_output_dir
        (logLine w ("Generating reference images in: " ++ OUTPUT_DIR))).rng).2 })
    (generatorsList_rendersOne rv uv sq xq hasSns)
  simp [generate_all, logLine, ensure_output_dir, List.append_assoc] at hl ⊢
  simp [hl]

/-- The files written by `generate_all`: one per chart whose renderer does
not raise, in declaration order. -/
theorem generate_all_files (rv : Nat → Nat → ℚ) (uv : ℚ → ℚ → Nat → Nat → ℚ)
    (ev : ℚ → Nat → Nat → ℚ) (sq xq : ℚ → ℚ)
    (oracle : String → Option String) (hasSns : Bool) (w : World) :
    (generate_all rv uv ev sq xq oracle hasSns w).files
      = w.files ++ (generatorsList rv uv sq xq hasSns).filterMap
          (fun q => if oracle q.1 = none then some (pngPath q.1) else none) := by
  obtain ⟨hf, hl, hd⟩ := runGenerators_spec oracle
    (generate_test_data rv uv ev sq 1000 SEED (ensure_output_dir
      (logLine w ("Generating reference images in: " ++ OUTPUT_DIR))).rng).1
    (generatorsList rv uv sq xq hasSns)
    ({ ensure_output_dir
        (logLine w ("Generating reference images in: " ++ OUTPUT_DIR)) with
      rng := (generate_test_data rv uv ev sq 1000 SEED (ensure_output_dir
        (logLine w ("Generating reference images in: " ++ OUTPUT_DIR))).rng).2 })
    (generatorsList_rendersOne rv uv sq xq hasSns)
  simp [generate_all, logLine, ensure_output_dir] at hf ⊢
  simp [hf]

/-! ### Claim theorems -/

/-- C1: `generate_test_data(n, s)` reseeds the global generator with `s`
before drawing, so any two calls with the same sample count and seed —
whatever global generator state each call starts from, i.e. within one run
or across separate runs — return equal numeric sequences for every key
(`normal`, `bimodal`, `uniform`, `exponential` and both components of
`xy`). -/
theorem c1_generate_test_data_reproducible
    (rv : Nat → Nat → ℚ) (uv : ℚ → ℚ → Nat → Nat → ℚ)
    (ev : ℚ → Nat → Nat → ℚ) (sq : ℚ → ℚ)
    (n s : Nat) (σ₁ σ₂ : RngState) :
    (generate_test_data rv uv ev sq n s σ₁).1.normal
        = (generate_test_data rv uv ev sq n s σ₂).1.normal
      ∧ (generate_test_data rv uv ev sq n s σ₁).1.bimodal
        = (generate_test_data rv uv ev sq n s σ₂).1.bimodal
      ∧ (generate_test_data rv uv ev sq n s σ₁).1.uniform
        = (generate_test_data rv uv ev sq n s σ₂).1.uniform
      ∧ (generate_test_data rv uv ev sq n s σ₁).1.exponential
        = (generate_test_data rv uv ev sq n s σ₂).1.exponential
      ∧ (generate_test_data rv uv ev sq n s σ₁).1.xyX
        = (generate_test_data rv uv ev sq n s σ₂).1.xyX
      ∧ (generate_test_data rv uv ev sq n s σ₁).1.xyY
        = (generate_test_data rv uv ev sq n s σ₂).1.xyY :=
  ⟨rfl, rfl, rfl, rfl, rfl, rfl⟩

/-- C9: `bimodal` has length `2 * (n / 2)`: for odd `n` that is `n - 1`,
strictly shorter than the length-`n` sequences `normal`, `uniform` and
`exponential`; for even `n` all four have length `n`. -/
theorem c9_bimodal_length
    (rv : Nat → Nat → ℚ) (uv : ℚ → ℚ → Nat → Nat → ℚ)
    (ev : ℚ → Nat → Nat → ℚ) (sq : ℚ → ℚ)
    (n s : Nat) (σ : RngState) :
    ((generate_test_data rv uv ev sq n s σ).1.normal.length = n
        ∧ (generate_test_data rv uv ev sq n s σ).1.uniform.length = n
        ∧ (generate_test_data rv uv ev sq n s σ).1.exponential.length = n)
      ∧ (n % 2 = 1 →
          (generate_test_data rv uv ev sq n s σ).1.bimodal.length = n - 1
            ∧ (generate_test_data rv uv ev sq n s σ).1.bimodal.length
                < (generate_test_data rv uv ev sq n s σ).1.normal.length)
      ∧ (n % 2 = 0 →
          (generate_test_data rv uv ev sq n s σ).1.bimodal.length = n) := by
  have hn : (generate_test_data rv uv ev sq n s σ).1.normal.length = n := by
    simp [generate_test_data, randnSeq]
  have hu : (generate_test_data rv uv ev sq n s σ).1.uniform.length = n := by
    simp [generate_test_data, uniformSeq]
  have he : (generate_test_data rv uv ev sq n s σ).1.exponential.length = n := by
    simp [generate_test_data, expSeq]
  have hb : (generate_test_data rv uv ev sq n s σ).1.bimodal.length = n / 2 + n / 2 := by
    simp [generate_test_data, randnSeq]
  refine ⟨⟨hn, hu, he⟩, fun hodd => ⟨?_, ?_⟩, fun heven => ?_⟩
  · rw [hb]; omega
  · rw [hb, hn]; omega
  · rw [hb]; omega

/-- Witness for C9 at the odd count `n = 5` (where `bimodal` has length 4,
shorter than `normal`) and the even count `n = 4` (length 4). -/
theorem c9_bimodal_length_witness :
    (5 % 2 = 1
        ∧ (generate_test_data rv0 uv0 ev0 sq0 5 42 ⟨0, 0⟩).1.bimodal.length = 5 - 1
        ∧ (generate_test_data rv0 uv0 ev0 sq0 5 42 ⟨0, 0⟩).1.bimodal.length
            < (generate_test_data rv0 uv0 ev0 sq0 5 42 ⟨0, 0⟩).1.normal.length)
      ∧ (4 % 2 = 0
        ∧ (generate_test_data rv0 uv0 ev0 sq0 4 42 ⟨0, 0⟩).1.bimodal.length = 4) :=
  ⟨⟨by decide,
    ((c9_bimodal_length rv0 uv0 ev0 sq0 5 42 ⟨0, 0⟩).2.1 (by decide)).1,
    ((c9_bimodal_length rv0 uv0 ev0 sq0 5 42 ⟨0, 0⟩).2.1 (by decide)).2⟩,
   ⟨by decide,
    (c9_bimodal_length rv0 uv0 ev0 sq0 4 42 ⟨0, 0⟩).2.2 (by decide)⟩⟩

/-- C8: `bimodal` is the concatenation of a first half built as the
standard-normal draws at positions `n, …, n + n/2 - 1` each minus 2 and a
second half as the draws at `n + n/2, …, n + 2*(n/2) - 1` each plus 2;
whenever the two blocks of underlying draws have sample means within `ε`
of 0 (which is what "standard-normal draws" gives with high probability),
the first half's mean is within `ε` of `-2`, the second half's within `ε`
of `+2`, and the two halves' means differ from 4 by at most `2 * ε`. -/
theorem c8_bimodal_halves
    (rv : Nat → Nat → ℚ) (uv : ℚ → ℚ → Nat → Nat → ℚ)
    (ev : ℚ → Nat → Nat → ℚ) (sq : ℚ → ℚ)
    (n s : Nat) (σ : RngState) (ε : ℚ)
    (hpos : 0 < n / 2)
    (h1 : |meanQ (randnSeq rv s n (n / 2))| ≤ ε)
    (h2 : |meanQ (randnSeq rv s (n + n / 2) (n / 2))| ≤ ε) :
    (generate_test_data rv uv ev sq n s σ).1.bimodal
        = (randnSeq rv s n (n / 2)).map (fun x => x - 2)
          ++ (randnSeq rv s (n + n / 2) (n / 2)).map (fun x => x + 2)
      ∧ |meanQ ((generate_test_data rv uv ev sq n s σ).1.bimodal.take (n / 2)) + 2| ≤ ε
      ∧ |meanQ ((generate_test_data rv uv ev sq n s σ).1.bimodal.drop (n / 2)) - 2| ≤ ε
      ∧ |meanQ ((generate_test_data rv uv ev sq n s σ).1.bimodal.drop (n / 2))
          - meanQ ((generate_test_data rv uv ev sq n s σ).1.bimodal.take (n / 2))
          - 4| ≤ 2 * ε := by
  have hne1 : randnSeq rv s n (n / 2) ≠ [] := randnSeq_ne_nil rv s n (n / 2) hpos
  have hne2 : randnSeq rv s (n + n / 2) (n / 2) ≠ [] :=
    randnSeq_ne_nil rv s (n + n / 2) (n / 2) hpos
  have hlen1 : ((randnSeq rv s n (n / 2)).map (fun x => x - 2)).length = n / 2 := by
    simp [randnSeq]
  have htake : (generate_test_data rv uv ev sq n s σ).1.bimodal.take (n / 2)
      = (randnSeq rv s n (n / 2)).map (fun x => x - 2) := by
    show (((randnSeq rv s n (n / 2)).map (fun x => x - 2))
        ++ (randnSeq rv s (n + n / 2) (n / 2)).map (fun x => x + 2)).take (n / 2)
      = (randnSeq rv s n (n / 2)).map (fun x => x - 2)
    exact List.take_left' hlen1
  have hdrop : (generate_test_data rv uv ev sq n s σ).1.bimodal.drop (n / 2)
      = (randnSeq rv s (n + n / 2) (n / 2)).map (fun x => x + 2) := by
    show (((randnSeq rv s n (n / 2)).map (fun x => x - 2))
        ++ (randnSeq rv s (n + n / 2) (n / 2)).map (fun x => x + 2)).drop (n / 2)
      = (randnSeq rv s (n + n / 2) (n / 2)).map (fun x => x + 2)
    exact List.drop_left' hlen1
  have hm1 : meanQ ((generate_test_data rv uv ev sq n s σ).1.bimodal.take (n / 2))
      = meanQ (randnSeq rv s n (n / 2)) - 2 := by
    rw [htake, meanQ_map_sub _ _ hne1]
  have hm2 : meanQ ((generate_test_data rv uv ev sq n s σ).1.bimodal.drop (n / 2))
      = meanQ (randnSeq rv s (n + n / 2) (n / 2)) + 2 := by
    rw [hdrop, meanQ_map_add _ _ hne2]
  refine ⟨rfl, ?_, ?_, ?_⟩
  · rw [hm1]
    have : meanQ (randnSeq rv s n (n / 2)) - 2 + 2
        = meanQ (randnSeq rv s n (n / 2)) := by ring
    rw [this]; exact h1
  · rw [hm2]
    have : meanQ (randnSeq rv s (n + n / 2) (n / 2)) + 2 - 2
        = meanQ (randnSeq rv s (n + n / 2) (n / 2)) := by ring
    rw [this]; exact h2
  · rw [hm1, hm2]
    have habs : |meanQ (randnSeq rv s (n + n / 2) (n / 2))
        - meanQ (randnSeq rv s n (n / 2))|
        ≤ |meanQ (randnSeq rv s (n + n / 2) (n / 2))|
          + |meanQ (randnSeq rv s n (n / 2))| := by
      calc |meanQ (randnSeq rv s (n + n / 2) (n / 2))
            - meanQ (randnSeq rv s n (n / 2))|
          = |meanQ (randnSeq rv s (n + n / 2) (n / 2))
            + -meanQ (randnSeq rv s n (n / 2))| := by rw [sub_eq_add_neg]
        _ ≤ |meanQ (randnSeq rv s (n + n / 2) (n / 2))|
            + |(-meanQ (randnSeq rv s n (n / 2)))| := abs_add _ _
        _ = |meanQ (randnSeq rv s (n + n / 2) (n / 2))|
            + |meanQ (randnSeq rv s n (n / 2))| := by rw [abs_neg]
    have heq : meanQ (randnSeq rv s (n + n / 2) (n / 2)) + 2
        - (meanQ (randnSeq rv s n (n / 2)) - 2) - 4
        = meanQ (randnSeq rv s (n + n / 2) (n / 2))
          - meanQ (randnSeq rv s n (n / 2)) := by ring
    rw [heq]
    calc |meanQ (randnSeq rv s (n + n / 2) (n / 2))
          - meanQ (randnSeq rv s n (n / 2))|
        ≤ |meanQ (randnSeq rv s (n + n / 2) (n / 2))|
          + |meanQ (randnSeq rv s n (n / 2))| := habs
      _ ≤ 2 * ε := by linarith [h1, h2]

/-- Witness for C8 at `n = 4`, the all-zero variate family (so both blocks
of underlying draws have mean exactly 0) and `ε = 0`: the two halves' means
are exactly `-2` and `+2` and differ from 4 by 0. -/
theorem c8_bimodal_halves_witness :
    (0 < 4 / 2
        ∧ |meanQ (randnSeq rvZ 42 4 (4 / 2))| ≤ 0
        ∧ |meanQ (randnSeq rvZ 42 (4 + 4 / 2) (4 / 2))| ≤ 0)
      ∧ |meanQ ((generate_test_data rvZ uv0 ev0 sq0 4 42 ⟨0, 0⟩).1.bimodal.drop (4 / 2))
          - meanQ ((generate_test_data rvZ uv0 ev0 sq0 4 42 ⟨0, 0⟩).1.bimodal.take (4 / 2))
          - 4| ≤ 2 * 0 :=
  ⟨⟨by decide, by norm_num [meanQ, randnSeq, rvZ, List.range_succ],
    by norm_num [meanQ, randnSeq, rvZ, List.range_succ]⟩,
   (c8_bimodal_halves rvZ uv0 ev0 sq0 4 42 ⟨0, 0⟩ 0
     (by decide) (by norm_num [meanQ, randnSeq, rvZ, List.range_succ])
     (by norm_num [meanQ, randnSeq, rvZ, List.range_succ])).2.2.2⟩

/-- C5 (amended): every renderer in the dispatch table writes exactly one
output file, at its fixed constant path `OUTPUT_DIR/<name>.png`, with no
other file writes and no directory change, and prints exactly one console
line; however, the claim's "its only other side effect is one console log
line" fails for three renderers: `hexbin`, `errorbar` and `heatmap` also
mutate the process-global random generator state (the remaining nine leave
it unchanged). -/
theorem c5_renderer_effects
    (rv : Nat → Nat → ℚ) (uv : ℚ → ℚ → Nat → Nat → ℚ)
    (sq xq : ℚ → ℚ) (hasSns : Bool) :
    ∀ q ∈ generatorsList rv uv sq xq hasSns, ∀ data w,
      (q.2 data w).files = w.files ++ [pngPath q.1]
      ∧ (q.2 data w).logs = w.logs ++ ["Generated: " ++ pngPath q.1]
      ∧ (q.2 data w).dirs = w.dirs
      ∧ (q.1 ∉ ["hexbin", "errorbar", "heatmap"] → (q.2 data w).rng = w.rng) := by
  intro q hq
  simp only [generatorsList, List.mem_cons, List.not_mem_nil, or_false] at hq
  rcases hq with h | h | h | h | h | h | h | h | h | h | h | h <;> subst h <;>
    intro data w <;>
    refine ⟨rfl, rfl, rfl, ?_⟩ <;>
    first
      | exact fun _ => rfl
      | (intro hnot; simp at hnot)

/-- Witness for C5 (amended) at the first table entry (`kde`), empty
dataset and empty world. -/
theorem c5_renderer_effects_witness :
    (("kde", generate_kde true) ∈ generatorsList rv0 uv0 sq0 xq0 true)
      ∧ ("kde" ∉ ["hexbin", "errorbar", "heatmap"])
      ∧ (generate_kde true dat0 w0).files = w0.files ++ [pngPath "kde"]
      ∧ (generate_kde true dat0 w0).rng = w0.rng :=
  ⟨by simp [generatorsList], by decide,
   (c5_renderer_effects rv0 uv0 sq0 xq0 true ("kde", generate_kde true)
     (by simp [generatorsList]) dat0 w0).1,
   (c5_renderer_effects rv0 uv0 sq0 xq0 true ("kde", generate_kde true)
     (by simp [generatorsList]) dat0 w0).2.2.2 (by decide)⟩

/-- Counterexample to C5 as stated: `generate_errorbar` does perform its one
file write, but it has a further side effect beyond the console line — it
advances the process-global random generator state. -/
theorem c5_errorbar_extra_side_effect :
    (generate_errorbar rv0 uv0 sq0 dat0 w0).files = w0.files ++ [pngPath "errorbar"]
      ∧ (generate_errorbar rv0 uv0 sq0 dat0 w0).rng ≠ w0.rng :=
  ⟨rfl, by decide⟩

/-- C6 (amended): the step renderer renders three series (`where='pre'`,
`'mid'` shifted by 0.5, `'post'` shifted by 1.0) into a single figure and
writes exactly ONE named output file, `step.png`, per invocation — not
two. -/
theorem c6_step_writes_one_file (data : Dataset) (w : World) :
    (generate_step data w).files = w.files ++ [pngPath "step"]
      ∧ (generate_step data w).plots = w.plots ++
          [("ax.step.pre", data.xyY.take 50),
           ("ax.step.mid", (data.xyY.take 50).map (fun v => v + 1 / 2)),
           ("ax.step.post", (data.xyY.take 50).map (fun v => v + 1))]
      ∧ (generate_step data w).logs = w.logs ++ ["Generated: " ++ pngPath "step"] :=
  ⟨rfl, rfl, rfl⟩

/-- Counterexample to C6 as stated: on a concrete invocation the step
renderer writes the single file `step.png`; its file count is 1, not 2. -/
theorem c6_step_not_two_files :
    (generate_step dat0 w0).files = [pngPath "step"]
      ∧ (generate_step dat0 w0).files.length ≠ 2 :=
  ⟨rfl, by decide⟩

/-- C7: with the optional seaborn extension absent (`sns is None`), the KDE
renderer still succeeds, taking the manual fallback path (two `ax.hist`
drawing calls instead of `sns.kdeplot`) and still writing `kde.png` with
its one console line. -/
theorem c7_kde_fallback_without_sns (data : Dataset) (w : World) :
    (generate_kde false data w).files = w.files ++ [pngPath "kde"]
      ∧ (generate_kde false data w).plots
          = w.plots ++ [("ax.hist", data.normal), ("ax.hist", data.bimodal)]
      ∧ (generate_kde false data w).logs
          = w.logs ++ ["Generated: " ++ pngPath "kde"] :=
  ⟨rfl, rfl, rfl⟩

/-- C3: for a chart-type argument outside the dispatch table, `main` prints
the usage message ("Unknown plot type" plus the list of available types),
terminates with exit status 1, and performs no file write and no drawing
call before exiting (only the pre-existing `ensure_output_dir` directory
creation and the dataset generation have run). -/
theorem c3_unknown_type_exits_1_no_files
    (rv : Nat → Nat → ℚ) (uv : ℚ → ℚ → Nat → Nat → ℚ)
    (ev : ℚ → Nat → Nat → ℚ) (sq xq : ℚ → ℚ)
    (oracle : String → Option String) (hasSns : Bool) (t : String) (w : World)
    (h : t ∉ dispatchKeys) :
    ∃ w', main' rv uv ev sq xq oracle hasSns t w = Except.ok (w', 1)
      ∧ w'.files = w.files
      ∧ w'.plots = w.plots
      ∧ w'.logs = w.logs ++ ["Unknown plot type: " ++ t,
          "Available types: " ++ String.intercalate ", " dispatchKeys] := by
  have hmain : main' rv uv ev sq xq oracle hasSns t w
      = Except.ok
          (logLine
            (logLine
              { ensure_output_dir w with
                rng := (generate_test_data rv uv ev sq 1000 SEED
                  (ensure_output_dir w).rng).2 }
              ("Unknown plot type: " ++ t))
            ("Available types: " ++ String.intercalate ", " dispatchKeys), 1) := by
    simp only [main']
    rw [if_pos h]
  refine ⟨_, hmain, ?_, ?_, ?_⟩ <;> simp [logLine, ensure_output_dir]

/-- Witness for C3 at the unknown name `bogus`: exit status 1 and no file
writes. -/
theorem c3_unknown_type_exits_1_no_files_witness :
    ("bogus" ∉ dispatchKeys)
      ∧ ∃ w', main' rv0 uv0 ev0 sq0 xq0 orcNone true "bogus" w0 = Except.ok (w', 1)
          ∧ w'.files = w0.files :=
  ⟨by decide,
   Exists.imp (fun w' hw => ⟨hw.1, hw.2.1⟩)
     (c3_unknown_type_exits_1_no_files rv0 uv0 ev0 sq0 xq0 orcNone true "bogus" w0
       (by decide))⟩

/-- C4: running with `all` (under the no-exception oracle) invokes each of
the twelve renderers exactly once, strictly sequentially in the declaration
order kde, ecdf, violin, step, contour, hexbin, pie, errorbar, histogram,
boxplot, heatmap, radar — the file-write trace is exactly one
`<type>.png` per known chart type, in that order (and the per-chart log
lines appear in the same order), with the twelve names pairwise distinct. -/
theorem c4_all_generates_each_chart_once
    (rv : Nat → Nat → ℚ) (uv : ℚ → ℚ → Nat → Nat → ℚ)
    (ev : ℚ → Nat → Nat → ℚ) (sq xq : ℚ → ℚ) (hasSns : Bool) (w : World) :
    chartNames.Nodup
      ∧ ∃ w', main' rv uv ev sq xq orcNone hasSns "all" w = Except.ok (w', 0)
          ∧ w'.files = w.files ++ chartNames.map pngPath
          ∧ w'.logs = w.logs
              ++ ("Generating reference images in: " ++ OUTPUT_DIR)
                :: (chartNames.map (fun c => "Generated: " ++ pngPath c)
                  ++ ["\nGenerated 12 reference images."]) := by
  refine ⟨by decide, ?_⟩
  have hmem : ¬ ("all" ∉ dispatchKeys) := by decide
  have hmain : main' rv uv ev sq xq orcNone hasSns "all" w
      = Except.ok
          (generate_all rv uv ev sq xq orcNone hasSns
            { ensure_output_dir w with
              rng := (generate_test_data rv uv ev sq 1000 SEED
                (ensure_output_dir w).rng).2 }, 0) := by
    simp only [main']
    rw [if_neg hmem, if_pos trivial]
  refine ⟨_, hmain, ?_, ?_⟩
  · rw [generate_all_files]
    rfl
  · rw [generate_all_logs]
    rfl

/-- C2: under any exception oracle, when a renderer raises inside the
"render all" path the exception is caught and logged with the chart's name
and message and every renderer whose own call does not raise still gets its
file written (in particular all remaining ones); when `main` is invoked for
a single named chart type whose renderer raises, the exception propagates
uncaught (`Except.error`) and the process terminates. -/
theorem c2_all_catches_single_propagates
    (rv : Nat → Nat → ℚ) (uv : ℚ → ℚ → Nat → Nat → ℚ)
    (ev : ℚ → Nat → Nat → ℚ) (sq xq : ℚ → ℚ)
    (oracle : String → Option String) (hasSns : Bool) (w : World)
    (name msg : String)
    (hmem : name ∈ chartNames) (horc : oracle name = some msg) :
    (("Error generating " ++ name ++ ": " ++ msg)
        ∈ (generate_all rv uv ev sq xq oracle hasSns w).logs)
      ∧ (∀ nm ∈ chartNames, oracle nm = none →
          pngPath nm ∈ (generate_all rv uv ev sq xq oracle hasSns w).files)
      ∧ main' rv uv ev sq xq oracle hasSns name w = Except.error msg := by
  have hfst := generatorsList_map_fst rv uv sq xq hasSns
  refine ⟨?_, ?_, ?_⟩
  · rw [generate_all_logs]
    rw [← hfst] at hmem
    obtain ⟨q, hq, hq1⟩ := List.mem_map.mp hmem
    have hin : ("Error generating " ++ name ++ ": " ++ msg)
        ∈ (generatorsList rv uv sq xq hasSns).map (fun q =>
            match oracle q.1 with
            | some e => "Error generating " ++ q.1 ++ ": " ++ e
            | none => "Generated: " ++ pngPath q.1) := by
      refine List.mem_map.mpr ⟨q, hq, ?_⟩
      rw [hq1, horc]
    exact List.mem_append.mpr (Or.inr (List.mem_cons.mpr (Or.inr
      (List.mem_append.mpr (Or.inl hin)))))
  · intro nm hnm hnone
    rw [generate_all_files]
    rw [← hfst] at hnm
    obtain ⟨q, hq, hq1⟩ := List.mem_map.mp hnm
    have hin : pngPath nm ∈ (generatorsList rv uv sq xq hasSns).filterMap
        (fun q => if oracle q.1 = none then some (pngPath q.1) else none) := by
      refine List.mem_filterMap.mpr ⟨q, hq, ?_⟩
      rw [hq1, hnone]
      simp
    exact List.mem_append.mpr (Or.inr hin)
  · have hkeys : name ∈ dispatchKeys := by
      have hsub : ∀ x ∈ chartNames, x ∈ dispatchKeys := by decide
      exact hsub name hmem
    have hnall : name ≠ "all" := by
      intro hEq
      have hno : "all" ∉ chartNames := by decide
      exact hno (hEq ▸ hmem)
    simp only [main']
    rw [if_neg (not_not_intro hkeys), if_neg hnall, horc]

/-- Witness for C2: under the oracle where exactly the violin renderer
raises `boom`, `generate_all` logs the error line and still writes
`kde.png` (a renderer that does not raise), while the single-chart path for
`violin` terminates with the propagated exception. -/
theorem c2_all_catches_single_propagates_witness :
    ("violin" ∈ chartNames)
      ∧ (orc1 "violin" = some "boom")
      ∧ (("Error generating " ++ "violin" ++ ": " ++ "boom")
          ∈ (generate_all rv0 uv0 ev0 sq0 xq0 orc1 true w0).logs)
      ∧ ("kde" ∈ chartNames ∧ orc1 "kde" = none
          ∧ pngPath "kde" ∈ (generate_all rv0 uv0 ev0 sq0 xq0 orc1 true w0).files)
      ∧ main' rv0 uv0 ev0 sq0 xq0 orc1 true "violin" w0 = Except.error "boom" :=
  ⟨by decide, rfl,
   (c2_all_catches_single_propagates rv0 uv0 ev0 sq0 xq0 orc1 true w0
     "violin" "boom" (by decide) rfl).1,
   ⟨by decide, rfl,
    (c2_all_catches_single_propagates rv0 uv0 ev0 sq0 xq0 orc1 true w0
      "violin" "boom" (by decide) rfl).2.1 "kde" (by decide) rfl⟩,
   (c2_all_catches_single_propagates rv0 uv0 ev0 sq0 xq0 orc1 true w0
     "violin" "boom" (by decide) rfl).2.2⟩

/-- C10: the error-bar renderer is not a function of its dataset argument
alone.  (1) It draws from the process-global generator without reseeding:
it keeps the incoming seed and advances the incoming position by its 20
draws.  (2) Under a concrete variate family, the `y` series it hands to
`ax.errorbar` differs between the single-chart invocation path and the
`all` path (where hexbin's reseed and 10000 draws precede it).  (3) Each
path is individually reproducible: the result of `main` is independent of
the global generator state the run starts from. -/
theorem c10_errorbar_not_function_of_dataset :
    (∀ (rv : Nat → Nat → ℚ) (uv : ℚ → ℚ → Nat → Nat → ℚ) (sq : ℚ → ℚ)
        (data : Dataset) (w : World),
        (generate_errorbar rv uv sq data w).rng = ⟨w.rng.seed, w.rng.pos + 20⟩)
      ∧ plottedOf (main' rv0 uv0 ev0 sq0 xq0 orcNone true "errorbar" w0)
          ≠ plottedOf (main' rv0 uv0 ev0 sq0 xq0 orcNone true "all" w0)
      ∧ (∀ (rv : Nat → Nat → ℚ) (uv : ℚ → ℚ → Nat → Nat → ℚ)
          (ev : ℚ → Nat → Nat → ℚ) (sq xq : ℚ → ℚ)
          (oracle : String → Option String) (hasSns : Bool) (t : String)
          (σ₁ σ₂ : RngState) (d f l : List String) (ps : List (String × List ℚ)),
          main' rv uv ev sq xq oracle hasSns t ⟨σ₁, d, f, l, ps⟩
            = main' rv uv ev sq xq oracle hasSns t ⟨σ₂, d, f, l, ps⟩) := by
  refine ⟨fun rv uv sq data w => rfl, ?_,
    fun rv uv ev sq xq oracle hasSns t σ₁ σ₂ d f l ps => rfl⟩
  have h1 : plottedOf (main' rv0 uv0 ev0 sq0 xq0 orcNone true "errorbar" w0)
      = some (ebY rv0 sq0 ⟨42, 5000⟩) := rfl
  have h2 : plottedOf (main' rv0 uv0 ev0 sq0 xq0 orcNone true "all" w0)
      = some (ebY rv0 sq0 ⟨42, 10000⟩) := rfl
  rw [h1, h2]
  intro h
  have h3 := Option.some.inj h
  simp [ebY, randnSeq, rv0, List.range_succ] at h3
